import Mathlib

/-!
# ICMP timestamp probe (`src/timestamp.cpp`)

A shallow embedding of `TimeSynchronizer`: the timestamp field codec
(`addTimestamp`, `dataVectorToTimestamp`, `readIntoDataVector`), the clock
(`now`) and the session handlers (`StartSend`, `HandleTimeout`,
`StartReceive`, `HandleReceive`).

Conventions.
* A `char` of a `DataVector` or of a datagram is a `Nat`; where the program
  reads one as a byte it is reduced `% 256`.
* `uint32_t` is `Nat` reduced `% 2 ^ 32`, `unsigned short` is `Nat` reduced
  `% 65536`, `size_t` is `Nat` reduced `% 2 ^ 64`.
* A `posix_time::ptime` is a `Nat`: the number of microseconds since an epoch
  that falls on a UTC midnight.
* `std::cout`, `mSocket.send_to`, `mSocket.async_receive` and
  `mTimer.cancel` are recorded, in program order, in the `log` of the
  session; the expiry and the handler of the pending `async_wait` are the
  `mTimer` field; `throw std::exception()` sets `terminated`.
-/

namespace TimeSynchronizer

/-! ## Timestamp field codec -/

/-- The constant `cIntSizeInBytes` of the class. -/
def cIntSizeInBytes : Nat := 4

/-- Byte `i` (in memory order) of `htonl(time)`: network byte order puts the
most significant byte first, whatever the host order is. -/
def htonlByte (time i : Nat) : Nat :=
  (time % 2 ^ 32) / 2 ^ (8 * (cIntSizeInBytes - 1 - i)) % 256

/-- The function `addTimestamp`: push the four bytes of `htonl(time)`, in
memory order, at the back of `buffer`. -/
def addTimestamp (buffer : List Nat) (time : Nat) : List Nat :=
  (List.range cIntSizeInBytes).foldl (fun b i => b ++ [htonlByte time i]) buffer

/-- The function `dataVectorToTimestamp`: copy `buffer[0..3]` over the bytes
of a `uint32_t` and return its `ntohl`. Reading `buffer[i]` past the end of
the vector is undefined in the source; the model returns `none` there. -/
def dataVectorToTimestamp (buffer : List Nat) : Option Nat :=
  if buffer.length < cIntSizeInBytes then none
  else some ((List.range cIntSizeInBytes).foldl
    (fun acc i => acc * 256 + buffer.getD i 0 % 256) 0)

/-- One `in.get(ch); vector.push_back(ch);` of `readIntoDataVector`: when the
stream has a character it is stored in `ch`, otherwise `get` fails and leaves
`ch` as it was. The result is `(ch, vector, in)`. -/
def getAndPush (st : Nat × List Nat × List Nat) : Nat × List Nat × List Nat :=
  match st.2.2 with
  | c :: rest => (c, st.2.1 ++ [c], rest)
  | [] => (st.1, st.2.1 ++ [st.1], [])

/-- The function `readIntoDataVector`: four times read a character of `input`
into the local `ch` and push `ch` on `vector`. The local `ch` is declared
without an initial value; `ch0` stands for whatever it holds. Returns the
vector and the rest of the stream. -/
def readIntoDataVector (ch0 : Nat) (vector input : List Nat) : List Nat × List Nat :=
  ((List.range cIntSizeInBytes).foldl (fun st _ => getAndPush st) (ch0, vector, input)).2

/-! ## Clock -/

/-- Microseconds in a day. -/
def microsPerDay : Nat := 86400000000

/-- The function `now`, applied to the reading `t` of
`microsec_clock::universal_time()`: the time of day in whole milliseconds,
cast to `uint32_t`. -/
def now (t : Nat) : Nat := (t % microsPerDay / 1000) % 2 ^ 32

/-- The value `posix_time::seconds(n)`, in microseconds. -/
def seconds (n : Nat) : Nat := n * 1000000

/-! ## Header codecs (`icmp_header.hpp`, `ipv4_header.hpp`) -/

/-- Modelled from the spec: the class `icmp_header` of `icmp_header.hpp`,
which is not among the sources. Its fields are those of the ICMP Timestamp
Message of the data model: `type`, `code`, `checksum`, `identifier` and
`sequence_number`. -/
structure icmp_header where
  type : Nat
  code : Nat
  checksum : Nat
  identifier : Nat
  sequence_number : Nat
  deriving DecidableEq, Repr

/-- Modelled from the spec: the constant `icmp_header::timestamp_request`
(`type` Request = 13). -/
def timestamp_request : Nat := 13

/-- Modelled from the spec: the constant `icmp_header::timestamp_reply`
(`type` Reply = 14). -/
def timestamp_reply : Nat := 14

/-- Modelled from the spec: a default-constructed `icmp_header`, every field
zero. -/
def icmp_header.zero : icmp_header := ⟨0, 0, 0, 0, 0⟩

/-- Modelled from the spec: `encode_header`, which serialises type, code, a
zero checksum placeholder, identifier and sequence number, each in its
fixed-width big-endian wire form. -/
def encode_header (msg : icmp_header) : List Nat :=
  [msg.type % 256, msg.code % 256, 0, 0,
   msg.identifier / 256 % 256, msg.identifier % 256,
   msg.sequence_number / 256 % 256, msg.sequence_number % 256]

/-- Modelled from the spec: the sum of all 16-bit words of a byte sequence (a
part of `compute_checksum`); when the length is odd the last byte is the high
byte of a padded word. -/
def sumWords : List Nat → Nat
  | [] => 0
  | [b] => b % 256 * 256
  | b0 :: b1 :: rest => b0 % 256 * 256 + b1 % 256 + sumWords rest

/-- Modelled from the spec: the folding of the carries of `compute_checksum`,
which adds what lies above the low 16 bits of the sum back to them until
nothing lies above; `fuel` bounds the number of rounds and a sum is fuel
enough for itself. -/
def foldCarries : Nat → Nat → Nat
  | 0, sum => sum % 65536
  | fuel + 1, sum =>
    if sum < 65536 then sum else foldCarries fuel (sum / 65536 + sum % 65536)

/-- Modelled from the spec: `compute_checksum(header_bytes, body_bytes)`, the
Internet checksum (RFC 1071) of header and body with the checksum field
taken as zero: sum the 16-bit words, fold the carries, take the one's
complement. -/
def internet_checksum (header_bytes body_bytes : List Nat) : Nat :=
  let sum := sumWords (header_bytes ++ body_bytes)
  65535 - foldCarries sum sum

/-- Modelled from the spec: the call `compute_checksum(header, begin, end)` of
`icmp_header.hpp`, which stores the checksum of header and body in the
header. -/
def compute_checksum (header : icmp_header) (body : List Nat) : icmp_header :=
  { header with checksum := internet_checksum (encode_header header) body }

/-- Modelled from the spec: `os << header`, the eight bytes of the header
with the computed checksum embedded in place of the placeholder. -/
def icmp_header.wire (header : icmp_header) : List Nat :=
  [header.type % 256, header.code % 256,
   header.checksum / 256 % 256, header.checksum % 256,
   header.identifier / 256 % 256, header.identifier % 256,
   header.sequence_number / 256 % 256, header.sequence_number % 256]

/-- Modelled from the spec: `decode_header`, which parses type, code,
checksum, identifier and sequence number from a fixed 8-byte start of the
input and returns them with the remaining bytes; it fails when fewer than 8
bytes are available. -/
def decode_header : List Nat → Option (icmp_header × List Nat)
  | b0 :: b1 :: b2 :: b3 :: b4 :: b5 :: b6 :: b7 :: rest =>
    some (⟨b0 % 256, b1 % 256, b2 % 256 * 256 + b3 % 256,
           b4 % 256 * 256 + b5 % 256, b6 % 256 * 256 + b7 % 256⟩, rest)
  | _ => none

/-- Modelled from the spec: `strip_ipv4_header`, which reads the version/IHL
byte, takes the header length to be IHL × 4 bytes and returns it with the
bytes after the header; it fails when the version nibble is not 4 or the
declared length exceeds the available bytes. -/
def strip_ipv4_header : List Nat → Option (Nat × List Nat)
  | [] => none
  | b0 :: rest =>
    let header_length := b0 % 16 * 4
    if b0 % 256 / 16 = 4 ∧ header_length ≤ (b0 :: rest).length then
      some (header_length, (b0 :: rest).drop header_length)
    else none

/-- The extraction `is >> ipv4Header >> icmpHeader`: the decoded ICMP header
and the rest of the stream when both extractions succeed (the stream tests
true), `none` when either fails (the stream tests false). -/
def readHeaders (stream : List Nat) : Option (icmp_header × List Nat) :=
  match strip_ipv4_header stream with
  | none => none
  | some (_, payload) => decode_header payload

/-! ## Session -/

/-- The member function a pending `mTimer.async_wait` is bound to. -/
inductive Handler
  | HandleTimeout
  | StartSend
  deriving DecidableEq, Repr

/-- What the session does to the outside, in program order. -/
inductive Event
  /-- A string literal written to `std::cout`. -/
  | cout (text : String)
  /-- A call `printMillisecondsAsTime(millis)`, with the hours, minutes and
  seconds it prints. -/
  | timeOfDay (millis hours minutes secs : Nat)
  /-- The number of milliseconds between request and response. -/
  | elapsed (ms : Int)
  /-- A call `mSocket.send_to(datagram, mDestination)`. -/
  | send_to (datagram : List Nat)
  /-- A call `mTimer.cancel()`. -/
  | cancel
  /-- A call `mSocket.async_receive(...)`. -/
  | async_receive
  deriving DecidableEq, Repr

/-- The data members of `TimeSynchronizer` the handlers read or write, the
pending wait of `mTimer` (expiry and handler), the record of outside effects
and whether `std::exception` has been thrown out of the event loop. -/
structure Session where
  mSequenceNumber : Nat
  mTimeSent : Nat
  mReplyBuffer : List Nat
  mReplyNumber : Nat
  mTimer : Option (Nat × Handler)
  log : List Event
  terminated : Bool
  deriving DecidableEq, Repr

/-- The function `GetIdentifier`: the process id, cast to `unsigned short`. -/
def GetIdentifier (pid : Nat) : Nat := pid % 65536

/-- The function `printMillisecondsAsTime`: the hours, minutes and seconds of
a duration of `millis` milliseconds, written to `std::cout`. -/
def printMillisecondsAsTime (millis : Nat) : Event :=
  Event.timeOfDay millis (millis / 3600000) (millis / 60000 % 60) (millis / 1000 % 60)

/-- The clock readings of one run of `StartSend`, in program order: the three
`now()` of the body, the `now()` that is printed, and the `universal_time()`
stored in `mTimeSent`. -/
structure SendClock where
  originate : Nat
  receive : Nat
  transmit : Nat
  shown : Nat
  sent : Nat
  deriving DecidableEq, Repr

/-- A clock that never runs backwards. -/
def SendClock.nondecreasing (c : SendClock) : Prop :=
  c.originate ≤ c.receive ∧ c.receive ≤ c.transmit ∧ c.transmit ≤ c.shown ∧ c.shown ≤ c.sent

/-- The header `StartSend` fills in before the checksum is computed, for the
already incremented sequence number `seq`. -/
def requestHeader (pid seq : Nat) : icmp_header :=
  { icmp_header.zero with
    type := timestamp_request
    code := 0
    identifier := GetIdentifier pid
    sequence_number := seq }

/-- The body `StartSend` builds: three `addTimestamp(body, now())`. -/
def requestBody (c : SendClock) : List Nat :=
  addTimestamp (addTimestamp (addTimestamp [] (now c.originate)) (now c.receive))
    (now c.transmit)

/-- The function `StartSend`. -/
def StartSend (pid : Nat) (c : SendClock) (s : Session) : Session :=
  let seq := (s.mSequenceNumber + 1) % 65536
  let timestampRequest := requestHeader pid seq
  let body := requestBody c
  let timestampRequest := compute_checksum timestampRequest body
  let requestBuffer := timestampRequest.wire ++ body
  { s with
    mSequenceNumber := seq
    mTimeSent := c.sent
    mReplyNumber := 0
    mTimer := some (c.sent + seconds 5, Handler.HandleTimeout)
    log := s.log ++ [Event.cout "Old time: ", printMillisecondsAsTime (now c.shown),
                     Event.send_to requestBuffer] }

/-- The function `HandleTimeout`. -/
def HandleTimeout (s : Session) : Session :=
  { s with
    log := if s.mReplyNumber = 0 then s.log ++ [Event.cout "Request timed out"] else s.log
    mTimer := some (s.mTimeSent + seconds 1, Handler.StartSend) }

/-- The function `StartReceive`. -/
def StartReceive (s : Session) : Session :=
  { s with
    mReplyBuffer := []
    log := s.log ++ [Event.async_receive] }

/-- The expression `trans + (recv - orig)` on `uint32_t`. -/
def receivedNowTime (orig recv trans : Nat) : Nat :=
  (trans + (recv + 2 ^ 32 - orig) % 2 ^ 32) % 2 ^ 32

/-- The reply branch of `HandleReceive`, entered with the stream positioned
after the two headers: `body` is what is left of it. `ch` holds the initial
contents of the local `ch` of the three calls of `readIntoDataVector` and
`tnow` is the clock reading taken for the elapsed time. -/
def acceptReply (ch : Nat × Nat × Nat) (tnow : Nat) (body : List Nat) (s : Session) :
    Option Session :=
  let replyNumber := s.mReplyNumber
  let log := if replyNumber = 0 then s.log ++ [Event.cancel] else s.log
  let timer := if replyNumber = 0 then none else s.mTimer
  let r0 := readIntoDataVector ch.1 [] body
  let r1 := readIntoDataVector ch.2.1 [] r0.2
  let r2 := readIntoDataVector ch.2.2 [] r1.2
  match dataVectorToTimestamp r0.1, dataVectorToTimestamp r1.1, dataVectorToTimestamp r2.1 with
  | some orig, some recv, some transm =>
    some { s with
      mReplyNumber := (replyNumber + 1) % 2 ^ 64
      mTimer := timer
      mReplyBuffer := r2.2
      log := log ++ [Event.cout "Time between request and response: ",
                     Event.elapsed (Int.tdiv ((tnow : Int) - (s.mTimeSent : Int)) 1000),
                     Event.cout " ms", Event.cout "New time: ",
                     printMillisecondsAsTime (receivedNowTime orig recv transm)]
      terminated := true }
  | _, _, _ => none

/-- The function `HandleReceive`, for a received `datagram` (its length is
the argument `length`, committed to `mReplyBuffer`). The result would be
`none` only where the source read a vector out of bounds, which it never does
(`HandleReceive_total`). -/
def HandleReceive (pid : Nat) (ch : Nat × Nat × Nat) (tnow : Nat) (datagram : List Nat)
    (s : Session) : Option Session :=
  let committed := s.mReplyBuffer ++ datagram
  match readHeaders committed with
  | some (icmpHeader, body) =>
    if icmpHeader.type = timestamp_reply ∧
        icmpHeader.identifier = GetIdentifier pid ∧
        icmpHeader.sequence_number = s.mSequenceNumber then
      acceptReply ch tnow body { s with mReplyBuffer := committed }
    else
      some (StartReceive { s with mReplyBuffer := committed })
  | none => some (StartReceive { s with mReplyBuffer := committed })

/-- The session after the member initialisers of the constructor:
`mSequenceNumber(0)`, `mReplyNumber(0)`, an empty buffer, no pending wait.
`mTimeSent` is default-constructed and written by `StartSend` before anything
reads it. -/
def fresh : Session :=
  { mSequenceNumber := 0, mTimeSent := 0, mReplyBuffer := [], mReplyNumber := 0,
    mTimer := none, log := [], terminated := false }

/-- The constructor: the member initialisers, then `StartSend()` and
`StartReceive()`. -/
def construct (pid : Nat) (c : SendClock) : Session :=
  StartReceive (StartSend pid c fresh)

instance (c : SendClock) : Decidable c.nondecreasing := by
  unfold SendClock.nondecreasing; infer_instance

/-- One completion of the pending wait of `mTimer`, at the instant `t`, as the
event loop performs it: a `deadline_timer` wait completes no earlier than its
expiry, and the handler bound to it then runs. A `StartSend` that runs at `t`
reads a clock that has reached `t` and does not run backwards. The result is
`none` when no wait can complete at `t`. -/
def timerFires (pid : Nat) (t : Nat) (c : SendClock) (s : Session) : Option Session :=
  match s.mTimer with
  | none => none
  | some (expiry, handler) =>
    if s.terminated = false ∧ expiry ≤ t then
      match handler with
      | Handler.HandleTimeout => some (HandleTimeout { s with mTimer := none })
      | Handler.StartSend =>
        if t ≤ c.originate ∧ c.nondecreasing then
          some (StartSend pid c { s with mTimer := none })
        else none
    else none

/-- The datagram of the last logged event, when that event is a `send_to`. -/
def sentDatagram (s : Session) : Option (List Nat) :=
  match s.log.getLast? with
  | some (Event.send_to datagram) => some datagram
  | _ => none

/-- The match rule of `HandleReceive`, on a decoded ICMP header. -/
def matchRule (pid : Nat) (s : Session) (icmpHeader : icmp_header) : Prop :=
  icmpHeader.type = timestamp_reply ∧
    icmpHeader.identifier = GetIdentifier pid ∧
    icmpHeader.sequence_number = s.mSequenceNumber

instance (pid : Nat) (s : Session) (h : icmp_header) : Decidable (matchRule pid s h) := by
  unfold matchRule; infer_instance

/-- The sessions the program can be in: the constructed one, and what any of
the handlers makes of a session that has not terminated. -/
inductive Reachable (pid : Nat) : Session → Prop
  | construct (c : SendClock) : Reachable pid (construct pid c)
  | startSend (c : SendClock) (s : Session) :
      Reachable pid s → s.terminated = false → Reachable pid (StartSend pid c s)
  | handleTimeout (s : Session) :
      Reachable pid s → s.terminated = false → Reachable pid (HandleTimeout s)
  | startReceive (s : Session) :
      Reachable pid s → s.terminated = false → Reachable pid (StartReceive s)
  | handleReceive (ch : Nat × Nat × Nat) (tnow : Nat) (datagram : List Nat) (s r : Session) :
      Reachable pid s → s.terminated = false →
      HandleReceive pid ch tnow datagram s = some r → Reachable pid r

/-! ## Sample inputs -/

/-- A 20-byte IPv4 header (version 4, IHL 5, protocol 1). -/
def sampleIpHeader : List Nat :=
  [69, 0, 0, 40, 0, 0, 0, 0, 64, 1, 0, 0, 10, 0, 0, 1, 10, 0, 0, 2]

/-- A clock that stands at `t` during a whole `StartSend`. -/
def clockAt (t : Nat) : SendClock := ⟨t, t, t, t, t⟩

/-- The session of process 4242, constructed at instant 0: its identifier is
4242 = 16 * 256 + 146 and its sequence number is 1. -/
def sampleSession : Session := construct 4242 (clockAt 0)

/-- A clock that advances by one millisecond between the first three readings
of a `StartSend`. -/
def tickingClock : SendClock := ⟨0, 1000, 2000, 2000, 2000⟩

/-- A Timestamp Reply for `sampleSession` with the given body. -/
def sampleReply (body : List Nat) : List Nat :=
  sampleIpHeader ++ [14, 0, 0, 0, 16, 146, 0, 1] ++ body

/-! ## Lemmas on the codec -/

theorem addTimestamp_eq (buffer : List Nat) (time : Nat) :
    addTimestamp buffer time =
      buffer ++ [time % 2 ^ 32 / 2 ^ 24 % 256, time % 2 ^ 32 / 2 ^ 16 % 256,
                 time % 2 ^ 32 / 2 ^ 8 % 256, time % 2 ^ 32 % 256] := by
  simp [addTimestamp, htonlByte, cIntSizeInBytes, List.range, List.range.loop]

theorem dataVectorToTimestamp_four (a b c d : Nat) :
    dataVectorToTimestamp [a, b, c, d] =
      some (((a % 256 * 256 + b % 256) * 256 + c % 256) * 256 + d % 256) := by
  simp [dataVectorToTimestamp, cIntSizeInBytes, List.range, List.range.loop]

theorem dataVectorToTimestamp_addTimestamp (time : Nat) :
    dataVectorToTimestamp (addTimestamp [] time) = some (time % 2 ^ 32) := by
  rw [addTimestamp_eq, List.nil_append, dataVectorToTimestamp_four]
  congr 1
  omega

theorem getAndPush_length (st : Nat × List Nat × List Nat) :
    (getAndPush st).2.1.length = st.2.1.length + 1 := by
  unfold getAndPush
  split <;> simp

theorem readIntoDataVector_eq (ch0 : Nat) (vector input : List Nat) :
    readIntoDataVector ch0 vector input =
      (getAndPush (getAndPush (getAndPush (getAndPush (ch0, vector, input))))).2 := by
  simp [readIntoDataVector, cIntSizeInBytes, List.range, List.range.loop]

theorem readIntoDataVector_length (ch0 : Nat) (input : List Nat) :
    (readIntoDataVector ch0 [] input).1.length = 4 := by
  rw [readIntoDataVector_eq]
  simp [getAndPush_length]

theorem readIntoDataVector_cons (ch0 a b c d : Nat) (rest : List Nat) :
    readIntoDataVector ch0 [] (a :: b :: c :: d :: rest) = ([a, b, c, d], rest) := by
  simp [readIntoDataVector_eq, getAndPush]

theorem readIntoDataVector_addTimestamp (ch0 time : Nat) (rest : List Nat) :
    readIntoDataVector ch0 [] (addTimestamp [] time ++ rest) = (addTimestamp [] time, rest) := by
  simp [addTimestamp_eq, readIntoDataVector_cons]

theorem dataVectorToTimestamp_readIntoDataVector (ch0 : Nat) (input : List Nat) :
    ∃ v, dataVectorToTimestamp (readIntoDataVector ch0 [] input).1 = some v ∧ v < 2 ^ 32 := by
  have h := readIntoDataVector_length ch0 input
  match hl : (readIntoDataVector ch0 [] input).1, h with
  | [a, b, c, d], _ =>
    refine ⟨_, dataVectorToTimestamp_four a b c d, ?_⟩
    omega

/-! ## Lemmas on the handlers -/

/-- The reply branch always runs to its end: it stores the incremented reply
count, cancels the timer when the count was zero, prints the time computed
from the three vectors it read and throws. -/
theorem acceptReply_eq (ch : Nat × Nat × Nat) (tnow : Nat) (body : List Nat) (s : Session) :
    ∃ orig recv transm,
      dataVectorToTimestamp (readIntoDataVector ch.1 [] body).1 = some orig ∧
      dataVectorToTimestamp
        (readIntoDataVector ch.2.1 [] (readIntoDataVector ch.1 [] body).2).1 = some recv ∧
      dataVectorToTimestamp
        (readIntoDataVector ch.2.2 []
          (readIntoDataVector ch.2.1 [] (readIntoDataVector ch.1 [] body).2).2).1 = some transm ∧
      acceptReply ch tnow body s = some
        { s with
          mReplyNumber := (s.mReplyNumber + 1) % 2 ^ 64
          mTimer := if s.mReplyNumber = 0 then none else s.mTimer
          mReplyBuffer :=
            (readIntoDataVector ch.2.2 []
              (readIntoDataVector ch.2.1 [] (readIntoDataVector ch.1 [] body).2).2).2
          log := (if s.mReplyNumber = 0 then s.log ++ [Event.cancel] else s.log) ++
            [Event.cout "Time between request and response: ",
             Event.elapsed (Int.tdiv ((tnow : Int) - (s.mTimeSent : Int)) 1000),
             Event.cout " ms", Event.cout "New time: ",
             printMillisecondsAsTime (receivedNowTime orig recv transm)]
          terminated := true } := by
  obtain ⟨orig, h0, -⟩ := dataVectorToTimestamp_readIntoDataVector ch.1 body
  obtain ⟨recv, h1, -⟩ :=
    dataVectorToTimestamp_readIntoDataVector ch.2.1 (readIntoDataVector ch.1 [] body).2
  obtain ⟨transm, h2, -⟩ := dataVectorToTimestamp_readIntoDataVector ch.2.2
    (readIntoDataVector ch.2.1 [] (readIntoDataVector ch.1 [] body).2).2
  refine ⟨orig, recv, transm, h0, h1, h2, ?_⟩
  simp only [acceptReply, h0, h1, h2]

theorem HandleReceive_reject (pid : Nat) (ch : Nat × Nat × Nat) (tnow : Nat)
    (datagram : List Nat) (s : Session)
    (h : ∀ icmpHeader body, readHeaders (s.mReplyBuffer ++ datagram) = some (icmpHeader, body) →
      ¬ matchRule pid s icmpHeader) :
    HandleReceive pid ch tnow datagram s =
      some (StartReceive { s with mReplyBuffer := s.mReplyBuffer ++ datagram }) := by
  cases hr : readHeaders (s.mReplyBuffer ++ datagram) with
  | none => simp only [HandleReceive, hr]
  | some p =>
    obtain ⟨icmpHeader, body⟩ := p
    have hn := h icmpHeader body hr
    unfold matchRule at hn
    simp only [HandleReceive, hr, if_neg hn]

theorem HandleReceive_accept (pid : Nat) (ch : Nat × Nat × Nat) (tnow : Nat)
    (datagram : List Nat) (s : Session) (icmpHeader : icmp_header) (body : List Nat)
    (hr : readHeaders (s.mReplyBuffer ++ datagram) = some (icmpHeader, body))
    (hm : matchRule pid s icmpHeader) :
    HandleReceive pid ch tnow datagram s =
      acceptReply ch tnow body { s with mReplyBuffer := s.mReplyBuffer ++ datagram } := by
  unfold HandleReceive
  unfold matchRule at hm
  simp only [hr, if_pos hm]

theorem addTimestamp_append (buffer : List Nat) (time : Nat) :
    addTimestamp buffer time = buffer ++ addTimestamp [] time := by
  simp [addTimestamp_eq]

/-- The reply branch on a body that starts with the encoding of three
timestamps. -/
theorem acceptReply_encoded (ch : Nat × Nat × Nat) (tnow : Nat) (s : Session)
    (orig recv transm : Nat) (extra : List Nat) :
    acceptReply ch tnow
        (addTimestamp (addTimestamp (addTimestamp [] orig) recv) transm ++ extra) s = some
      { s with
        mReplyNumber := (s.mReplyNumber + 1) % 2 ^ 64
        mTimer := if s.mReplyNumber = 0 then none else s.mTimer
        mReplyBuffer := extra
        log := (if s.mReplyNumber = 0 then s.log ++ [Event.cancel] else s.log) ++
          [Event.cout "Time between request and response: ",
           Event.elapsed (Int.tdiv ((tnow : Int) - (s.mTimeSent : Int)) 1000),
           Event.cout " ms", Event.cout "New time: ",
           printMillisecondsAsTime
             (receivedNowTime (orig % 2 ^ 32) (recv % 2 ^ 32) (transm % 2 ^ 32))]
        terminated := true } := by
  have hb : addTimestamp (addTimestamp (addTimestamp [] orig) recv) transm ++ extra =
      addTimestamp [] orig ++ (addTimestamp [] recv ++ (addTimestamp [] transm ++ extra)) := by
    rw [addTimestamp_append (addTimestamp (addTimestamp [] orig) recv),
      addTimestamp_append (addTimestamp [] orig)]
    simp only [List.append_assoc]
  simp only [acceptReply, hb, readIntoDataVector_addTimestamp,
    dataVectorToTimestamp_addTimestamp]

theorem receivedNowTime_int (orig recv transm : Nat)
    (ho : orig < 2 ^ 32) (hv : recv < 2 ^ 32) :
    ((receivedNowTime orig recv transm : Nat) : Int) =
      ((transm : Int) + (recv : Int) - (orig : Int)) % 2 ^ 32 := by
  unfold receivedNowTime
  omega

theorem getLast_append_five (l : List Event) (a b c d e : Event) :
    (l ++ [a, b, c, d, e]).getLast? = some e := by
  simp [List.getLast?_append]

theorem now_lt (t : Nat) : now t < 2 ^ 32 := by
  unfold now
  omega

theorem sentDatagram_StartSend (pid : Nat) (c : SendClock) (s : Session) :
    sentDatagram (StartSend pid c s) = some
      ((compute_checksum (requestHeader pid ((s.mSequenceNumber + 1) % 65536))
        (requestBody c)).wire ++ requestBody c) := by
  simp [sentDatagram, StartSend, List.getLast?_append]

theorem addTimestamp_three (a b c : Nat) :
    addTimestamp (addTimestamp (addTimestamp [] a) b) c =
      [a % 2 ^ 32 / 2 ^ 24 % 256, a % 2 ^ 32 / 2 ^ 16 % 256,
       a % 2 ^ 32 / 2 ^ 8 % 256, a % 2 ^ 32 % 256,
       b % 2 ^ 32 / 2 ^ 24 % 256, b % 2 ^ 32 / 2 ^ 16 % 256,
       b % 2 ^ 32 / 2 ^ 8 % 256, b % 2 ^ 32 % 256,
       c % 2 ^ 32 / 2 ^ 24 % 256, c % 2 ^ 32 / 2 ^ 16 % 256,
       c % 2 ^ 32 / 2 ^ 8 % 256, c % 2 ^ 32 % 256] := by
  simp [addTimestamp_eq]

/-- Three 32-bit values with the same encoding as a triple `(v, v, v)` are
equal. -/
theorem addTimestamp_three_inj (a b c v : Nat)
    (ha : a < 2 ^ 32) (hb : b < 2 ^ 32) (hc : c < 2 ^ 32)
    (h : addTimestamp (addTimestamp (addTimestamp [] a) b) c =
      addTimestamp (addTimestamp (addTimestamp [] v) v) v) : a = b ∧ b = c := by
  rw [addTimestamp_three, addTimestamp_three] at h
  simp only [List.cons.injEq, and_true] at h
  omega

/-- The two ways `HandleReceive` can go. -/
theorem HandleReceive_cases (pid : Nat) (ch : Nat × Nat × Nat) (tnow : Nat)
    (datagram : List Nat) (s : Session) :
    (∃ icmpHeader body,
        readHeaders (s.mReplyBuffer ++ datagram) = some (icmpHeader, body) ∧
        matchRule pid s icmpHeader ∧
        HandleReceive pid ch tnow datagram s =
          acceptReply ch tnow body { s with mReplyBuffer := s.mReplyBuffer ++ datagram }) ∨
      HandleReceive pid ch tnow datagram s =
        some (StartReceive { s with mReplyBuffer := s.mReplyBuffer ++ datagram }) := by
  by_cases h : ∃ icmpHeader body,
      readHeaders (s.mReplyBuffer ++ datagram) = some (icmpHeader, body) ∧
      matchRule pid s icmpHeader
  · obtain ⟨icmpHeader, body, hr, hm⟩ := h
    exact Or.inl ⟨icmpHeader, body, hr, hm,
      HandleReceive_accept pid ch tnow datagram s icmpHeader body hr hm⟩
  · refine Or.inr (HandleReceive_reject pid ch tnow datagram s ?_)
    intro icmpHeader body hr hm
    exact h ⟨icmpHeader, body, hr, hm⟩

/-- The handler `HandleReceive` always runs to its end: the vectors it decodes
hold four characters each. -/
theorem HandleReceive_total (pid : Nat) (ch : Nat × Nat × Nat) (tnow : Nat)
    (datagram : List Nat) (s : Session) :
    ∃ r, HandleReceive pid ch tnow datagram s = some r := by
  rcases HandleReceive_cases pid ch tnow datagram s with ⟨icmpHeader, body, -, -, hacc⟩ | hrej
  · obtain ⟨orig, recv, transm, -, -, -, he⟩ :=
      acceptReply_eq ch tnow body { s with mReplyBuffer := s.mReplyBuffer ++ datagram }
    exact ⟨_, hacc.trans he⟩
  · exact ⟨_, hrej⟩

/-- A session that has not terminated has accepted no reply since its last
send. -/
theorem Reachable.replyNumber_eq_zero {pid : Nat} {s : Session} (hs : Reachable pid s) :
    s.terminated = false → s.mReplyNumber = 0 := by
  induction hs with
  | construct c => intro _; rfl
  | startSend c s _ _ _ => intro _; rfl
  | handleTimeout s _ hterm ih => intro _; exact ih hterm
  | startReceive s _ hterm ih => intro _; exact ih hterm
  | handleReceive ch tnow datagram s r _ hterm hrecv ih =>
    intro hr
    rcases HandleReceive_cases pid ch tnow datagram s with ⟨icmpHeader, body, -, -, hacc⟩ | hrej
    · obtain ⟨orig, recv, transm, -, -, -, he⟩ :=
        acceptReply_eq ch tnow body { s with mReplyBuffer := s.mReplyBuffer ++ datagram }
      rw [hacc, he] at hrecv
      cases hrecv
      cases hr
    · rw [hrej] at hrecv
      cases hrecv
      exact ih hterm

/-! ## Claims -/

/-- C1. Match rule of `HandleReceive`: when the IPv4 and ICMP headers of the
committed datagram parse, the reply branch is taken (the handler prints a
remote time and throws) if and only if the ICMP type is Timestamp Reply (14),
the identifier is `GetIdentifier()` and the sequence number is
`mSequenceNumber`; and the datagram is rejected (the handler only calls
`StartReceive`) if and only if one of the three fails. -/
theorem HandleReceive_match_rule (pid : Nat) (ch : Nat × Nat × Nat) (tnow : Nat)
    (datagram : List Nat) (s : Session) (icmpHeader : icmp_header) (body : List Nat)
    (hr : readHeaders (s.mReplyBuffer ++ datagram) = some (icmpHeader, body)) :
    ((∃ r v, HandleReceive pid ch tnow datagram s = some r ∧ r.terminated = true ∧
          r.log.getLast? = some (printMillisecondsAsTime v)) ↔
        (icmpHeader.type = 14 ∧ icmpHeader.identifier = GetIdentifier pid ∧
          icmpHeader.sequence_number = s.mSequenceNumber)) ∧
      (HandleReceive pid ch tnow datagram s =
          some (StartReceive { s with mReplyBuffer := s.mReplyBuffer ++ datagram }) ↔
        ¬ (icmpHeader.type = 14 ∧ icmpHeader.identifier = GetIdentifier pid ∧
          icmpHeader.sequence_number = s.mSequenceNumber)) := by
  by_cases hm : icmpHeader.type = 14 ∧ icmpHeader.identifier = GetIdentifier pid ∧
      icmpHeader.sequence_number = s.mSequenceNumber
  · have hacc := HandleReceive_accept pid ch tnow datagram s icmpHeader body hr hm
    obtain ⟨orig, recv, transm, -, -, -, he⟩ :=
      acceptReply_eq ch tnow body { s with mReplyBuffer := s.mReplyBuffer ++ datagram }
    rw [he] at hacc
    refine ⟨⟨fun _ => hm, fun _ => ⟨_, receivedNowTime orig recv transm, hacc, rfl, ?_⟩⟩, ?_⟩
    · exact getLast_append_five _ _ _ _ _ _
    · rw [hacc]
      constructor
      · intro h
        have hl := congrArg (fun o => o.map fun r => r.log.getLast?) h
        simp [StartReceive, printMillisecondsAsTime] at hl
      · intro h
        exact absurd hm h
  · have hrej := HandleReceive_reject pid ch tnow datagram s (by
      intro h b hb
      rw [hr] at hb
      cases hb
      exact hm)
    refine ⟨⟨?_, fun h => absurd h hm⟩, ⟨fun _ => hm, fun _ => hrej⟩⟩
    rintro ⟨r, v, h1, -, h3⟩
    rw [hrej] at h1
    cases h1
    simp [StartReceive, printMillisecondsAsTime] at h3

/-- A matching Timestamp Reply for the sample session: its headers parse. -/
theorem HandleReceive_match_rule_witness :
    readHeaders (sampleSession.mReplyBuffer ++
        sampleReply [0, 0, 0, 100, 0, 0, 0, 150, 0, 0, 0, 160]) =
      some (⟨14, 0, 0, 4242, 1⟩, [0, 0, 0, 100, 0, 0, 0, 150, 0, 0, 0, 160]) ∧
    (((∃ r v, HandleReceive 4242 (0, 0, 0) 10000
            (sampleReply [0, 0, 0, 100, 0, 0, 0, 150, 0, 0, 0, 160]) sampleSession = some r ∧
          r.terminated = true ∧ r.log.getLast? = some (printMillisecondsAsTime v)) ↔
        ((⟨14, 0, 0, 4242, 1⟩ : icmp_header).type = 14 ∧
          (⟨14, 0, 0, 4242, 1⟩ : icmp_header).identifier = GetIdentifier 4242 ∧
          (⟨14, 0, 0, 4242, 1⟩ : icmp_header).sequence_number =
            sampleSession.mSequenceNumber)) ∧
      (HandleReceive 4242 (0, 0, 0) 10000
            (sampleReply [0, 0, 0, 100, 0, 0, 0, 150, 0, 0, 0, 160]) sampleSession =
          some (StartReceive { sampleSession with
            mReplyBuffer := sampleSession.mReplyBuffer ++
              sampleReply [0, 0, 0, 100, 0, 0, 0, 150, 0, 0, 0, 160] }) ↔
        ¬ ((⟨14, 0, 0, 4242, 1⟩ : icmp_header).type = 14 ∧
          (⟨14, 0, 0, 4242, 1⟩ : icmp_header).identifier = GetIdentifier 4242 ∧
          (⟨14, 0, 0, 4242, 1⟩ : icmp_header).sequence_number =
            sampleSession.mSequenceNumber))) :=
  ⟨by decide, HandleReceive_match_rule 4242 (0, 0, 0) 10000
    (sampleReply [0, 0, 0, 100, 0, 0, 0, 150, 0, 0, 0, 160]) sampleSession
    ⟨14, 0, 0, 4242, 1⟩ [0, 0, 0, 100, 0, 0, 0, 150, 0, 0, 0, 160] (by decide)⟩


/-- C3. Timestamp codec round trip: for every `t` in `[0, 86399999]`,
`addTimestamp` applied to an empty buffer yields exactly 4 bytes, and
`dataVectorToTimestamp` on that buffer returns `t`. -/
theorem timestamp_round_trip (t : Nat) (ht : t ≤ 86399999) :
    (addTimestamp [] t).length = 4 ∧ dataVectorToTimestamp (addTimestamp [] t) = some t := by
  refine ⟨by simp [addTimestamp_eq], ?_⟩
  rw [dataVectorToTimestamp_addTimestamp]
  congr 1
  omega

/-- The round trip at the last millisecond of the day. -/
theorem timestamp_round_trip_witness :
    (86399999 : Nat) ≤ 86399999 ∧
      (addTimestamp [] 86399999).length = 4 ∧
      dataVectorToTimestamp (addTimestamp [] 86399999) = some 86399999 :=
  ⟨by decide, timestamp_round_trip 86399999 (by decide)⟩

/-- C2. Offset computation in `HandleReceive`: for all 32-bit `orig`, `recv`,
`transm` carried by an accepted reply, the remote time passed to
`printMillisecondsAsTime` is the integer `transm + recv - orig` reduced modulo
`2 ^ 32` (also when `recv < orig`); `orig = 100`, `recv = 150`, `transm = 160`
gives 210. -/
theorem HandleReceive_offset (pid : Nat) (ch : Nat × Nat × Nat) (tnow : Nat)
    (datagram : List Nat) (s : Session) (icmpHeader : icmp_header)
    (orig recv transm : Nat) (extra : List Nat)
    (ho : orig < 2 ^ 32) (hv : recv < 2 ^ 32) (ht : transm < 2 ^ 32)
    (hr : readHeaders (s.mReplyBuffer ++ datagram) = some (icmpHeader,
      addTimestamp (addTimestamp (addTimestamp [] orig) recv) transm ++ extra))
    (hm : matchRule pid s icmpHeader) :
    ∃ r v, HandleReceive pid ch tnow datagram s = some r ∧
      r.log.getLast? = some (printMillisecondsAsTime v) ∧
      v = receivedNowTime orig recv transm ∧
      (v : Int) = ((transm : Int) + (recv : Int) - (orig : Int)) % 2 ^ 32 ∧
      receivedNowTime 100 150 160 = 210 := by
  have hacc := HandleReceive_accept pid ch tnow datagram s icmpHeader _ hr hm
  rw [acceptReply_encoded, Nat.mod_eq_of_lt ho, Nat.mod_eq_of_lt hv, Nat.mod_eq_of_lt ht] at hacc
  refine ⟨_, receivedNowTime orig recv transm, hacc, getLast_append_five _ _ _ _ _ _, rfl,
    receivedNowTime_int orig recv transm ho hv, by decide⟩

/-- The reply `(100, 150, 160)` to the sample session reports 210. -/
theorem HandleReceive_offset_witness :
    readHeaders (sampleSession.mReplyBuffer ++
        sampleReply (addTimestamp (addTimestamp (addTimestamp [] 100) 150) 160 ++ [])) =
      some (⟨14, 0, 0, 4242, 1⟩,
        addTimestamp (addTimestamp (addTimestamp [] 100) 150) 160 ++ []) ∧
    matchRule 4242 sampleSession ⟨14, 0, 0, 4242, 1⟩ ∧
    ∃ r v, HandleReceive 4242 (0, 0, 0) 10000
        (sampleReply (addTimestamp (addTimestamp (addTimestamp [] 100) 150) 160 ++ []))
        sampleSession = some r ∧
      r.log.getLast? = some (printMillisecondsAsTime v) ∧
      v = receivedNowTime 100 150 160 ∧
      (v : Int) = ((160 : Nat) + (150 : Nat) - (100 : Nat) : Int) % 2 ^ 32 ∧
      receivedNowTime 100 150 160 = 210 :=
  ⟨by decide, by decide, HandleReceive_offset 4242 (0, 0, 0) 10000
    (sampleReply (addTimestamp (addTimestamp (addTimestamp [] 100) 150) 160 ++ []))
    sampleSession ⟨14, 0, 0, 4242, 1⟩ 100 150 160 []
    (by decide) (by decide) (by decide) (by decide) (by decide)⟩

/-- C8, as stated, fails: a reply with `orig = 86399999`, `recv = 0`,
`transm = 0` (all three in `0..86399999`) is accepted by the sample session
and the value passed to `printMillisecondsAsTime` is
`2 ^ 32 - 86399999 = 4208567297`, which is not in `0..86399999`. -/
theorem remote_time_range_counterexample :
    readHeaders (sampleSession.mReplyBuffer ++
        sampleReply (addTimestamp (addTimestamp (addTimestamp [] 86399999) 0) 0 ++ [])) =
      some (⟨14, 0, 0, 4242, 1⟩,
        addTimestamp (addTimestamp (addTimestamp [] 86399999) 0) 0 ++ []) ∧
    matchRule 4242 sampleSession ⟨14, 0, 0, 4242, 1⟩ ∧
    (∃ r, HandleReceive 4242 (0, 0, 0) 10000
        (sampleReply (addTimestamp (addTimestamp (addTimestamp [] 86399999) 0) 0 ++ []))
        sampleSession = some r ∧
      r.log.getLast? = some (printMillisecondsAsTime 4208567297)) ∧
    ¬ (4208567297 ≤ 86399999) := by
  refine ⟨by decide, by decide, ?_, by decide⟩
  have hacc := HandleReceive_accept 4242 (0, 0, 0) 10000
    (sampleReply (addTimestamp (addTimestamp (addTimestamp [] 86399999) 0) 0 ++ []))
    sampleSession ⟨14, 0, 0, 4242, 1⟩
    (addTimestamp (addTimestamp (addTimestamp [] 86399999) 0) 0 ++ []) (by decide) (by decide)
  rw [acceptReply_encoded] at hacc
  exact ⟨_, hacc, getLast_append_five _ _ _ _ _ _⟩

/-- C8, amended. For every accepted reply whose `orig`, `recv` and `transm`
lie in `0..86399999`, the value passed to `printMillisecondsAsTime` is a
32-bit value, `transm + recv - orig` reduced modulo `2 ^ 32`; it lies in
`0..86399999` exactly when `orig ≤ transm + recv` and
`transm + recv - orig ≤ 86399999`. -/
theorem HandleReceive_remote_time_range (pid : Nat) (ch : Nat × Nat × Nat) (tnow : Nat)
    (datagram : List Nat) (s : Session) (icmpHeader : icmp_header)
    (orig recv transm : Nat) (extra : List Nat)
    (ho : orig ≤ 86399999) (hv : recv ≤ 86399999) (ht : transm ≤ 86399999)
    (hr : readHeaders (s.mReplyBuffer ++ datagram) = some (icmpHeader,
      addTimestamp (addTimestamp (addTimestamp [] orig) recv) transm ++ extra))
    (hm : matchRule pid s icmpHeader) :
    ∃ r v, HandleReceive pid ch tnow datagram s = some r ∧
      r.log.getLast? = some (printMillisecondsAsTime v) ∧
      v < 2 ^ 32 ∧
      (v : Int) = ((transm : Int) + (recv : Int) - (orig : Int)) % 2 ^ 32 ∧
      (v ≤ 86399999 ↔ orig ≤ transm + recv ∧ transm + recv - orig ≤ 86399999) := by
  have hacc := HandleReceive_accept pid ch tnow datagram s icmpHeader _ hr hm
  rw [acceptReply_encoded, Nat.mod_eq_of_lt (by omega : orig < 2 ^ 32),
    Nat.mod_eq_of_lt (by omega : recv < 2 ^ 32),
    Nat.mod_eq_of_lt (by omega : transm < 2 ^ 32)] at hacc
  refine ⟨_, receivedNowTime orig recv transm, hacc, getLast_append_five _ _ _ _ _ _, ?_,
    receivedNowTime_int orig recv transm (by omega) (by omega), ?_⟩
  · unfold receivedNowTime
    omega
  · unfold receivedNowTime
    omega

/-- The amended C8 at the reply `(100, 150, 160)` to the sample session. -/
theorem HandleReceive_remote_time_range_witness :
    (100 : Nat) ≤ 86399999 ∧ (150 : Nat) ≤ 86399999 ∧ (160 : Nat) ≤ 86399999 ∧
    readHeaders (sampleSession.mReplyBuffer ++
        sampleReply (addTimestamp (addTimestamp (addTimestamp [] 100) 150) 160 ++ [])) =
      some (⟨14, 0, 0, 4242, 1⟩,
        addTimestamp (addTimestamp (addTimestamp [] 100) 150) 160 ++ []) ∧
    matchRule 4242 sampleSession ⟨14, 0, 0, 4242, 1⟩ ∧
    ∃ r v, HandleReceive 4242 (0, 0, 0) 10000
        (sampleReply (addTimestamp (addTimestamp (addTimestamp [] 100) 150) 160 ++ []))
        sampleSession = some r ∧
      r.log.getLast? = some (printMillisecondsAsTime v) ∧
      v < 2 ^ 32 ∧
      (v : Int) = ((160 : Nat) + (150 : Nat) - (100 : Nat) : Int) % 2 ^ 32 ∧
      (v ≤ 86399999 ↔ 100 ≤ 160 + 150 ∧ 160 + 150 - 100 ≤ 86399999) :=
  ⟨by decide, by decide, by decide, by decide, by decide,
    HandleReceive_remote_time_range 4242 (0, 0, 0) 10000
      (sampleReply (addTimestamp (addTimestamp (addTimestamp [] 100) 150) 160 ++ []))
      sampleSession ⟨14, 0, 0, 4242, 1⟩ 100 150 160 []
      (by decide) (by decide) (by decide) (by decide) (by decide)⟩

/-- C9. Rejection leaves the session intact: when the headers of the
committed datagram fail to parse, or parse with a wrong type, a wrong
identifier or a wrong sequence number, `HandleReceive` returns with
`mSequenceNumber`, `mReplyNumber`, `mTimeSent` and the pending timer
unchanged, does not throw, empties `mReplyBuffer` and issues exactly one
`async_receive`. -/
theorem HandleReceive_reject_frame (pid : Nat) (ch : Nat × Nat × Nat) (tnow : Nat)
    (datagram : List Nat) (s : Session)
    (h : readHeaders (s.mReplyBuffer ++ datagram) = none ∨
      ∃ icmpHeader body,
        readHeaders (s.mReplyBuffer ++ datagram) = some (icmpHeader, body) ∧
        (icmpHeader.type ≠ 14 ∨ icmpHeader.identifier ≠ GetIdentifier pid ∨
          icmpHeader.sequence_number ≠ s.mSequenceNumber)) :
    ∃ r, HandleReceive pid ch tnow datagram s = some r ∧
      r.mSequenceNumber = s.mSequenceNumber ∧
      r.mReplyNumber = s.mReplyNumber ∧
      r.mTimeSent = s.mTimeSent ∧
      r.mTimer = s.mTimer ∧
      r.terminated = s.terminated ∧
      r.mReplyBuffer = [] ∧
      r.log = s.log ++ [Event.async_receive] := by
  refine ⟨_, HandleReceive_reject pid ch tnow datagram s ?_, rfl, rfl, rfl, rfl, rfl, rfl, rfl⟩
  intro icmpHeader body hb hm
  obtain ⟨h1, h2, h3⟩ := hm
  rcases h with h | ⟨i, b, hib, hc⟩
  · rw [h] at hb
    cases hb
  · rw [hib] at hb
    cases hb
    rcases hc with hc | hc | hc
    · exact hc h1
    · exact hc h2
    · exact hc h3

/-- A reply with sequence number 2 is rejected by the sample session, whose
last sent sequence number is 1. -/
theorem HandleReceive_reject_frame_witness :
    (readHeaders (sampleSession.mReplyBuffer ++
          (sampleIpHeader ++ [14, 0, 0, 0, 16, 146, 0, 2])) = none ∨
      ∃ icmpHeader body,
        readHeaders (sampleSession.mReplyBuffer ++
          (sampleIpHeader ++ [14, 0, 0, 0, 16, 146, 0, 2])) = some (icmpHeader, body) ∧
        (icmpHeader.type ≠ 14 ∨ icmpHeader.identifier ≠ GetIdentifier 4242 ∨
          icmpHeader.sequence_number ≠ sampleSession.mSequenceNumber)) ∧
    ∃ r, HandleReceive 4242 (0, 0, 0) 10000
        (sampleIpHeader ++ [14, 0, 0, 0, 16, 146, 0, 2]) sampleSession = some r ∧
      r.mSequenceNumber = sampleSession.mSequenceNumber ∧
      r.mReplyNumber = sampleSession.mReplyNumber ∧
      r.mTimeSent = sampleSession.mTimeSent ∧
      r.mTimer = sampleSession.mTimer ∧
      r.terminated = sampleSession.terminated ∧
      r.mReplyBuffer = [] ∧
      r.log = sampleSession.log ++ [Event.async_receive] :=
  ⟨Or.inr ⟨⟨14, 0, 0, 4242, 2⟩, [], by decide, Or.inr (Or.inr (by decide))⟩,
    HandleReceive_reject_frame 4242 (0, 0, 0) 10000
      (sampleIpHeader ++ [14, 0, 0, 0, 16, 146, 0, 2]) sampleSession
      (Or.inr ⟨⟨14, 0, 0, 4242, 2⟩, [], by decide, Or.inr (Or.inr (by decide))⟩)⟩

/-- C7 fails on the code. A Timestamp Reply whose headers parse and match the
sample session but which carries no body at all is not discarded: whatever the
uninitialised locals hold, `HandleReceive` cancels the pending timer, prints a
remote time and throws, without calling `StartReceive`. -/
theorem HandleReceive_short_body (ch : Nat × Nat × Nat) (tnow : Nat) :
    readHeaders (sampleSession.mReplyBuffer ++ sampleReply []) =
      some (⟨14, 0, 0, 4242, 1⟩, []) ∧
    matchRule 4242 sampleSession ⟨14, 0, 0, 4242, 1⟩ ∧
    ([] : List Nat).length < 12 ∧
    sampleSession.terminated = false ∧
    sampleSession.mTimer = some (5000000, Handler.HandleTimeout) ∧
    ∃ r v, HandleReceive 4242 ch tnow (sampleReply []) sampleSession = some r ∧
      r.terminated = true ∧
      r.mTimer = none ∧
      r.log = sampleSession.log ++
        [Event.cancel, Event.cout "Time between request and response: ",
         Event.elapsed (Int.tdiv ((tnow : Int) - 0) 1000),
         Event.cout " ms", Event.cout "New time: ", printMillisecondsAsTime v] := by
  refine ⟨by decide, by decide, by decide, by decide, by decide, ?_⟩
  have hacc := HandleReceive_accept 4242 ch tnow (sampleReply []) sampleSession
    ⟨14, 0, 0, 4242, 1⟩ [] (by decide) (by decide)
  obtain ⟨orig, recv, transm, -, -, -, he⟩ := acceptReply_eq ch tnow []
    { sampleSession with mReplyBuffer := sampleSession.mReplyBuffer ++ sampleReply [] }
  rw [he] at hacc
  exact ⟨_, receivedNowTime orig recv transm, hacc, rfl, rfl, rfl⟩

/-- C4. Postcondition of `StartSend`: the sequence number is the previous one
plus one (16-bit); the datagram sent decodes to a header of type Timestamp
Request (13), code 0 and that sequence number; the first request of a fresh
session carries 1; `mReplyNumber` is 0; and the timer is armed for
`HandleTimeout` at the recorded `mTimeSent` plus 5 seconds. -/
theorem StartSend_postcondition (pid : Nat) (c : SendClock) (s : Session) :
    (StartSend pid c s).mSequenceNumber = (s.mSequenceNumber + 1) % 65536 ∧
    (∃ datagram icmpHeader body,
      sentDatagram (StartSend pid c s) = some datagram ∧
      decode_header datagram = some (icmpHeader, body) ∧
      icmpHeader.type = 13 ∧ icmpHeader.code = 0 ∧
      icmpHeader.sequence_number = (StartSend pid c s).mSequenceNumber) ∧
    (fresh.mSequenceNumber = 0 ∧
      ∃ datagram icmpHeader body,
        sentDatagram (StartSend pid c fresh) = some datagram ∧
        decode_header datagram = some (icmpHeader, body) ∧
        icmpHeader.sequence_number = 1) ∧
    (StartSend pid c s).mReplyNumber = 0 ∧
    (StartSend pid c s).mTimeSent = c.sent ∧
    (StartSend pid c s).mTimer =
      some ((StartSend pid c s).mTimeSent + 5 * 1000000, Handler.HandleTimeout) := by
  have hsent : ∀ q : Session, sentDatagram (StartSend pid c q) = some
      ((compute_checksum (requestHeader pid ((q.mSequenceNumber + 1) % 65536))
        (requestBody c)).wire ++ requestBody c) := by
    intro q
    simp [sentDatagram, StartSend, List.getLast?_append]
  refine ⟨rfl, ⟨_, _, _, hsent s, rfl, rfl, rfl, ?_⟩, ⟨rfl, _, _, _, hsent fresh, rfl, ?_⟩,
    rfl, rfl, rfl⟩
  · simp only [StartSend, compute_checksum, requestHeader]
    omega
  · simp [compute_checksum, requestHeader, fresh]

/-- C6, as stated, fails: with a non-decreasing clock that advances by one
millisecond between the three `now()` calls, the body of the request sent by
`StartSend` is the encoding of 0, 1 and 2, and is not the encoding of one
value three times. -/
theorem StartSend_identical_timestamps_counterexample :
    tickingClock.nondecreasing ∧
    (sentDatagram (StartSend 4242 tickingClock fresh)).map (List.drop 8) =
      some [0, 0, 0, 0, 0, 0, 0, 1, 0, 0, 0, 2] ∧
    ¬ ∃ v, (sentDatagram (StartSend 4242 tickingClock fresh)).map (List.drop 8) =
      some (addTimestamp (addTimestamp (addTimestamp [] v) v) v) := by
  have hd : (sentDatagram (StartSend 4242 tickingClock fresh)).map (List.drop 8) =
      some [0, 0, 0, 0, 0, 0, 0, 1, 0, 0, 0, 2] := by decide
  refine ⟨by decide, hd, ?_⟩
  rintro ⟨v, hv⟩
  rw [hd, addTimestamp_three] at hv
  simp only [Option.some.injEq, List.cons.injEq, and_true] at hv
  omega

/-- C6, amended. The 12-byte body of the request `StartSend` sends encodes, in
order, the values of three successive `now()` calls, one clock reading each;
the three timestamps are one and the same value exactly when those three
readings give the same millisecond of the day. -/
theorem StartSend_body_timestamps (pid : Nat) (c : SendClock) (s : Session) :
    ∃ datagram, sentDatagram (StartSend pid c s) = some datagram ∧
      datagram.drop 8 =
        addTimestamp (addTimestamp (addTimestamp [] (now c.originate)) (now c.receive))
          (now c.transmit) ∧
      (datagram.drop 8).length = 12 ∧
      dataVectorToTimestamp ((datagram.drop 8).take 4) = some (now c.originate) ∧
      dataVectorToTimestamp ((datagram.drop 12).take 4) = some (now c.receive) ∧
      dataVectorToTimestamp ((datagram.drop 16).take 4) = some (now c.transmit) ∧
      ((∃ v, datagram.drop 8 = addTimestamp (addTimestamp (addTimestamp [] v) v) v) ↔
        now c.originate = now c.receive ∧ now c.receive = now c.transmit) := by
  have ho := now_lt c.originate
  have hv := now_lt c.receive
  have ht := now_lt c.transmit
  have hdrop : ((compute_checksum (requestHeader pid ((s.mSequenceNumber + 1) % 65536))
        (requestBody c)).wire ++ requestBody c).drop 8 = requestBody c := by
    simp [icmp_header.wire]
  refine ⟨_, sentDatagram_StartSend pid c s, hdrop, ?_, ?_, ?_, ?_, ?_⟩
  · rw [hdrop, requestBody, addTimestamp_three]
    rfl
  · rw [hdrop, requestBody, addTimestamp_three]
    simp only [List.take, dataVectorToTimestamp_four]
    congr 1
    omega
  · have h12 : ((compute_checksum (requestHeader pid ((s.mSequenceNumber + 1) % 65536))
        (requestBody c)).wire ++ requestBody c).drop 12 = (requestBody c).drop 4 := by
      simp [icmp_header.wire]
    rw [h12, requestBody, addTimestamp_three]
    simp only [List.drop, List.take, dataVectorToTimestamp_four]
    congr 1
    omega
  · have h16 : ((compute_checksum (requestHeader pid ((s.mSequenceNumber + 1) % 65536))
        (requestBody c)).wire ++ requestBody c).drop 16 = (requestBody c).drop 8 := by
      simp [icmp_header.wire]
    rw [h16, requestBody, addTimestamp_three]
    simp only [List.drop, List.take, dataVectorToTimestamp_four]
    congr 1
    omega
  · rw [hdrop, requestBody]
    constructor
    · rintro ⟨v, h⟩
      exact addTimestamp_three_inj _ _ _ v ho hv ht h
    · rintro ⟨h1, h2⟩
      exact ⟨now c.transmit, by rw [h1, h2]⟩

/-- C5, as stated, fails: the sample session sent its request at instant 0;
its 5-second timeout fires at 5 s with no reply accepted, `HandleTimeout` arms
the timer for 1 s, which has passed, so `StartSend` can run at 5 s: the
second request is sent at 5 s, sooner than 0 + 5 s + 1 s. -/
theorem retry_spacing_counterexample :
    sampleSession.terminated = false ∧
    sampleSession.mReplyNumber = 0 ∧
    sampleSession.mTimer = some (sampleSession.mTimeSent + seconds 5, Handler.HandleTimeout) ∧
    ∃ s1 s2,
      timerFires 4242 5000000 (clockAt 5000000) sampleSession = some s1 ∧
      timerFires 4242 5000000 (clockAt 5000000) s1 = some s2 ∧
      s2.mSequenceNumber = 2 ∧
      s2.mTimeSent = 5000000 ∧
      ¬ (sampleSession.mTimeSent + seconds 5 + seconds 1 ≤ s2.mTimeSent) :=
  ⟨by decide, by decide, by decide, _, _, rfl, rfl, by decide, by decide, by decide⟩

/-- C5, amended. When the 5-second timeout of a session fires with no reply
accepted, `HandleTimeout` reports the timeout and arms the timer for
`StartSend` at `mTimeSent` + 1 s; the next transmission then occurs no sooner
than `mTimeSent` + 5 s, the earliest instant at which the timeout can have
fired (and so no sooner than `mTimeSent` + 1 s). -/
theorem retry_spacing_bound (pid : Nat) (t1 t2 : Nat) (c1 c2 : SendClock) (s s1 s2 : Session)
    (hreply : s.mReplyNumber = 0)
    (htimer : s.mTimer = some (s.mTimeSent + seconds 5, Handler.HandleTimeout))
    (h1 : timerFires pid t1 c1 s = some s1)
    (h12 : t1 ≤ t2)
    (h2 : timerFires pid t2 c2 s1 = some s2) :
    s1.log = s.log ++ [Event.cout "Request timed out"] ∧
    s1.mTimer = some (s.mTimeSent + seconds 1, Handler.StartSend) ∧
    s2.mSequenceNumber = (s.mSequenceNumber + 1) % 65536 ∧
    s.mTimeSent + seconds 5 ≤ s2.mTimeSent ∧
    s.mTimeSent + seconds 1 ≤ s2.mTimeSent ∧
    seconds 5 = 5000000 ∧ seconds 1 = 1000000 := by
  simp only [timerFires, htimer] at h1
  split at h1
  next hcond =>
    cases h1
    simp only [timerFires, HandleTimeout] at h2
    split at h2
    next hcond2 =>
      split at h2
      next hclock =>
        cases h2
        obtain ⟨hle, hmono⟩ := hclock
        unfold SendClock.nondecreasing at hmono
        obtain ⟨m1, m2, m3, m4⟩ := hmono
        have hexp : s.mTimeSent + 5 * 1000000 ≤ t1 := hcond.2
        refine ⟨by simp [HandleTimeout, hreply], rfl, rfl, ?_, ?_, rfl, rfl⟩
        · show s.mTimeSent + 5 * 1000000 ≤ c2.sent
          omega
        · show s.mTimeSent + 1 * 1000000 ≤ c2.sent
          omega
      next => cases h2
    next => cases h2
  next => cases h1

/-- The amended C5 on the sample session: the timeout fires at 5 s and the
next request is sent at 5 s. -/
theorem retry_spacing_bound_witness :
    sampleSession.mReplyNumber = 0 ∧
    sampleSession.mTimer = some (sampleSession.mTimeSent + seconds 5, Handler.HandleTimeout) ∧
    timerFires 4242 5000000 (clockAt 5000000) sampleSession =
      some (HandleTimeout { sampleSession with mTimer := none }) ∧
    timerFires 4242 5000000 (clockAt 5000000)
        (HandleTimeout { sampleSession with mTimer := none }) =
      some (StartSend 4242 (clockAt 5000000)
        { HandleTimeout { sampleSession with mTimer := none } with mTimer := none }) ∧
    (StartSend 4242 (clockAt 5000000)
        { HandleTimeout { sampleSession with mTimer := none } with mTimer := none }).mTimeSent =
      5000000 ∧
    sampleSession.mTimeSent + seconds 5 ≤
      (StartSend 4242 (clockAt 5000000)
        { HandleTimeout { sampleSession with mTimer := none } with mTimer := none }).mTimeSent :=
  ⟨by decide, by decide, by decide, by decide, by decide,
    (retry_spacing_bound 4242 5000000 5000000 (clockAt 5000000) (clockAt 5000000) sampleSession
      (HandleTimeout { sampleSession with mTimer := none })
      (StartSend 4242 (clockAt 5000000)
        { HandleTimeout { sampleSession with mTimer := none } with mTimer := none })
      (by decide) (by decide) (by decide) (by decide) (by decide)).2.2.2.1⟩

/-- C10. In every non-terminated session reachable from the constructed one by
`StartSend`, `HandleTimeout`, `StartReceive` and `HandleReceive` steps,
`mReplyNumber` is 0; so every reply accepted there is the first one (the
branch is entered with a zero count and leaves it at 1) and cancels the
timer, and a timeout that fires there prints "Request timed out". -/
theorem reachable_reply_count (pid : Nat) (s : Session) (hs : Reachable pid s)
    (hterm : s.terminated = false) :
    s.mReplyNumber = 0 ∧
    (∀ ch tnow datagram, ∃ r, HandleReceive pid ch tnow datagram s = some r) ∧
    (∀ ch tnow datagram r, HandleReceive pid ch tnow datagram s = some r →
      r.terminated = true →
      r.mReplyNumber = 1 ∧ r.mTimer = none ∧ ∃ rest, r.log = s.log ++ Event.cancel :: rest) ∧
    (HandleTimeout s).log = s.log ++ [Event.cout "Request timed out"] := by
  have h0 := hs.replyNumber_eq_zero hterm
  refine ⟨h0, fun ch tnow datagram => HandleReceive_total pid ch tnow datagram s, ?_,
    by simp [HandleTimeout, h0]⟩
  intro ch tnow datagram r hrecv hr
  rcases HandleReceive_cases pid ch tnow datagram s with ⟨icmpHeader, body, -, -, hacc⟩ | hrej
  · obtain ⟨orig, recv, transm, -, -, -, he⟩ :=
      acceptReply_eq ch tnow body { s with mReplyBuffer := s.mReplyBuffer ++ datagram }
    rw [hacc, he] at hrecv
    cases hrecv
    simp [h0]
  · rw [hrej] at hrecv
    cases hrecv
    simp [StartReceive, hterm] at hr

/-- The sample session is reachable and has not terminated. -/
theorem reachable_reply_count_witness :
    Reachable 4242 sampleSession ∧ sampleSession.terminated = false ∧
    sampleSession.mReplyNumber = 0 ∧
    (∀ ch tnow datagram, ∃ r, HandleReceive 4242 ch tnow datagram sampleSession = some r) ∧
    (∀ ch tnow datagram r, HandleReceive 4242 ch tnow datagram sampleSession = some r →
      r.terminated = true →
      r.mReplyNumber = 1 ∧ r.mTimer = none ∧
        ∃ rest, r.log = sampleSession.log ++ Event.cancel :: rest) ∧
    (HandleTimeout sampleSession).log =
      sampleSession.log ++ [Event.cout "Request timed out"] :=
  ⟨Reachable.construct (clockAt 0), by decide,
    reachable_reply_count 4242 sampleSession (Reachable.construct (clockAt 0)) (by decide)⟩

end TimeSynchronizer
